import Mathlib

set_option maxRecDepth 10000

/-!
Verification of the AI Code Explainer orchestration layer (src/app.py).

The program is a Streamlit front-end around one function, `explain_code`,
which builds a prompt from a code snippet, a language label and a
complexity tier, issues a single chat-completion request, and returns the
response text (or a formatted error string).  We embed it shallowly:

* Python exceptions become the explicit `PyResult` sum type; a Python call
  either returns a value (`PyResult.ok`) or raises with a detail string
  (`PyResult.exn`).
* The remote Groq client is an oracle parameter
  `call : ChatRequest → PyResult ChatCompletion`, so every behaviour of
  the network (success, fault, malformed reply) is a choice of oracle.
* Streamlit session state is the explicit `SessionState` record and the
  explain-button handler from `main` is `handleExplainClick`, returning
  the UI events it emitted, the chat requests issued, and whether
  `explain_code` was invoked.
-/

/-- Result of evaluating a Python expression: a value, or a raised
exception carrying `str(e)`. -/
inductive PyResult (α : Type) where
  | ok (val : α) : PyResult α
  | exn (detail : String) : PyResult α
deriving DecidableEq

/-- One message of the chat-completion request (`role`/`content` dict in
the `messages` list of `client.chat.completions.create`). -/
structure ChatMessage where
  role : String
  content : String
deriving DecidableEq

/-- The keyword arguments of `client.chat.completions.create` in
`explain_code` (src/app.py lines 90-104). -/
structure ChatRequest where
  messages : List ChatMessage
  model : String
  temperature : ℚ
  max_tokens : Nat
deriving DecidableEq

/-- The `message` object of one returned completion choice. -/
structure RespMessage where
  content : String
deriving DecidableEq

/-- One element of `chat_completion.choices`. -/
structure Choice where
  message : RespMessage
deriving DecidableEq

/-- The completion object returned by the endpoint, exposing its list of
choices. -/
structure ChatCompletion where
  choices : List Choice
deriving DecidableEq

/-- The `complexity_prompts` dict of `explain_code` (src/app.py lines
65-69), as an association list in source order. -/
def complexity_prompts : List (String × String) :=
  [("Beginner", "Explain this code in very simple terms, as if talking to someone who just started programming. Use everyday language and avoid technical jargon."),
   ("Intermediate", "Explain this code clearly, including the main concepts and how different parts work together. Use some technical terms but explain them."),
   ("Advanced", "Provide a detailed technical explanation of this code, including algorithms, design patterns, and performance considerations.")]

/-- Literal fragment of the prompt f-string before the instruction slot
(src/app.py lines 71-88; the f-string's blank lines carry eight trailing
spaces, which we reproduce exactly). -/
def promptLit0 : String := "\n        "

/-- Literal fragment between the instruction slot and the language slot. -/
def promptLit1 : String := "\n        \n        Programming Language: "

/-- Literal fragment between the language slot and the lower-cased
language slot that annotates the opening code fence. -/
def promptLit2 : String := "\n        \n        Code to explain:\n        ```"

/-- Literal fragment between the fence annotation and the code slot. -/
def promptLit3 : String := "\n        "

/-- Literal tail of the prompt f-string after the code slot. -/
def promptLit4 : String := "\n        ```\n        \n        Please provide:\n        1. A brief overview of what the code does\n        2. Step-by-step explanation of each part\n        3. Key concepts or techniques used\n        4. Any potential improvements or considerations (if applicable)\n        \n        Format your response in a clear, easy-to-read manner.\n        "

/-- Python `str.lower()`, character-wise lower-casing, defined over the
character list so it evaluates by kernel reduction. -/
def pyLower (s : String) : String := String.mk (s.data.map Char.toLower)

/-- The prompt f-string of `explain_code`: the literal fragments with the
instruction, the language label, the lower-cased language label and the
raw code interpolated in source order. -/
def buildPrompt (inst lang code : String) : String :=
  promptLit0 ++ inst ++ promptLit1 ++ lang ++ promptLit2 ++ pyLower lang ++
    promptLit3 ++ code ++ promptLit4

/-- The fixed system-role message content of the request (src/app.py line
94). -/
def systemContent : String :=
  "You are an expert programming instructor who excels at explaining code in clear, understandable language. Always be encouraging and educational."

/-- The single request `explain_code` issues: two messages (fixed system
persona, then the constructed prompt as user message), fixed model
identifier, temperature 0.3 and max_tokens 1500 (src/app.py lines
90-104). -/
def mkChatRequest (prompt : String) : ChatRequest :=
  { messages := [{ role := "system", content := systemContent },
                 { role := "user", content := prompt }],
    model := "llama3-8b-8192",
    temperature := 3 / 10,
    max_tokens := 1500 }

/-- Detail string of the `KeyError` raised by a failing dict lookup,
`str(KeyError(k))`, for keys whose repr is plain quoting. -/
def pyKeyErrorStr (key : String) : String := "'" ++ key ++ "'"

/-- Detail string of the `IndexError` raised by `choices[0]` on an empty
list. -/
def pyIndexErrorStr : String := "list index out of range"

/-- Extraction of `chat_completion.choices[0].message.content` from the
outcome of the remote call: a raised fault propagates, an empty choice
list raises `IndexError`, otherwise the first choice's content is
returned. -/
def handleCompletion : PyResult ChatCompletion → PyResult String
  | PyResult.exn e => PyResult.exn e
  | PyResult.ok cc =>
    match cc.choices with
    | [] => PyResult.exn pyIndexErrorStr
    | choice :: _ => PyResult.ok choice.message.content

/-- Body of the `try:` block of `explain_code` (src/app.py lines 63-106):
template lookup (a dict access that raises `KeyError` on an unknown
tier), prompt construction, the single remote call, and extraction of the
first choice's content.  The second component records the chat requests
issued. -/
def explain_code_body (call : ChatRequest → PyResult ChatCompletion)
    (code_snippet programming_language complexity_level : String) :
    PyResult String × List ChatRequest :=
  match List.lookup complexity_level complexity_prompts with
  | none => (PyResult.exn (pyKeyErrorStr complexity_level), [])
  | some inst =>
    (handleCompletion
        (call (mkChatRequest (buildPrompt inst programming_language code_snippet))),
     [mkChatRequest (buildPrompt inst programming_language code_snippet)])

/-- `explain_code` (src/app.py lines 61-109): the `try:` body wrapped in
the `except Exception as e:` handler, which turns any raised exception
into the returned string `"Error explaining code: " + str(e)`.  The first
component is the outcome of the Python call (always a returned value if
no exception escapes), the second the chat requests issued. -/
def explain_code (call : ChatRequest → PyResult ChatCompletion)
    (code_snippet programming_language complexity_level : String) :
    PyResult String × List ChatRequest :=
  match explain_code_body call code_snippet programming_language complexity_level with
  | (PyResult.ok v, reqs) => (PyResult.ok v, reqs)
  | (PyResult.exn e, reqs) => (PyResult.ok ("Error explaining code: " ++ e), reqs)

/-- The fixed source-language enumeration offered by the language
selectbox (src/app.py lines 131-134). -/
def programming_languages : List String :=
  ["Python", "JavaScript", "Java", "C++", "C", "C#", "Go", "Rust", "Ruby",
   "PHP", "Swift", "Kotlin", "Other"]

/-- The fixed complexity-tier enumeration offered by the explanation-level
selectbox (src/app.py lines 137-141). -/
def complexity_levels : List String := ["Beginner", "Intermediate", "Advanced"]

/-- The Streamlit session state the claims touch: the stored API key and
the `sample_code` entry backing the code text area.  `none` models an
absent key. -/
structure SessionState where
  groq_api_key : Option String
  sample_code : Option String
deriving DecidableEq

/-- Python `str.strip()` with no argument: drop leading and trailing
whitespace.  Defined over the character list so it evaluates by kernel
reduction. -/
def pyStrip (s : String) : String :=
  String.mk (((s.data.dropWhile Char.isWhitespace).reverse.dropWhile
    Char.isWhitespace).reverse)

/-- Python truthiness of `st.session_state.get(k)` for a string-valued
entry: `None` and the empty string are falsy. -/
def truthyOpt : Option String → Bool
  | none => false
  | some s => !(s == "")

/-- The Groq client object; construction may raise, which the
`groqNew` oracle models. -/
structure GroqClient where
  api_key : String
deriving DecidableEq

/-- UI events the explain-button handler can emit: `st.warning`,
`st.error`, and the rendered explanation markdown. -/
inductive UIEvent where
  | warning (msg : String) : UIEvent
  | errorMsg (msg : String) : UIEvent
  | explanation (text : String) : UIEvent
deriving DecidableEq

/-- `initialize_groq_client` (src/app.py lines 49-59): read the stored
key (empty default); a falsy key yields no client; otherwise construct
the client, turning a constructor exception into an `st.error` event and
`None`. -/
def initialize_groq_client (groqNew : String → PyResult GroqClient)
    (state : SessionState) : Option GroqClient × List UIEvent :=
  let api_key := state.groq_api_key.getD ""
  if api_key == "" then (none, [])
  else
    match groqNew api_key with
    | PyResult.ok client => (some client, [])
    | PyResult.exn e =>
      (none, [UIEvent.errorMsg ("Error initializing Groq client: " ++ e)])

/-- Outcome of one press of the "Explain Code" button: the UI events
emitted (or a propagating exception), the chat requests issued, whether
`explain_code` was invoked, and the session state afterwards. -/
structure ClickResult where
  outcome : PyResult (List UIEvent)
  requests : List ChatRequest
  explain_invoked : Bool
  state : SessionState
deriving DecidableEq

/-- The explain-button branch of `main` (src/app.py lines 196-216):
blank code warns, a falsy stored key errors, otherwise the client is
initialized and `explain_code`'s result is rendered; a failed client
initialization errors.  No branch mutates the session state. -/
def handleExplainClick (groqNew : String → PyResult GroqClient)
    (call : GroqClient → ChatRequest → PyResult ChatCompletion)
    (state : SessionState)
    (code_snippet programming_language complexity_level : String) : ClickResult :=
  if pyStrip code_snippet == "" then
    { outcome := PyResult.ok [UIEvent.warning "Please enter some code to explain!"],
      requests := [], explain_invoked := false, state := state }
  else if !(truthyOpt state.groq_api_key) then
    { outcome := PyResult.ok [UIEvent.errorMsg "Please enter your Groq API key in the sidebar!"],
      requests := [], explain_invoked := false, state := state }
  else
    match initialize_groq_client groqNew state with
    | (some client, events) =>
      match explain_code (call client) code_snippet programming_language complexity_level with
      | (PyResult.ok expl, reqs) =>
        { outcome := PyResult.ok (events ++ [UIEvent.explanation expl]),
          requests := reqs, explain_invoked := true, state := state }
      | (PyResult.exn e, reqs) =>
        { outcome := PyResult.exn e,
          requests := reqs, explain_invoked := true, state := state }
    | (none, events) =>
      { outcome := PyResult.ok (events ++
          [UIEvent.errorMsg "Failed to initialize Groq client. Please check your API key."]),
        requests := [], explain_invoked := false, state := state }

/-- The "Clear Code" action (src/app.py lines 189-191): set
`st.session_state['sample_code']` to the empty string (the subsequent
`st.rerun` re-renders the view from this state). -/
def handleClearClick (state : SessionState) : SessionState :=
  { state with sample_code := some "" }

/-- The value the code text area reads back on a render:
`st.session_state.get('sample_code', '')` (src/app.py line 183). -/
def codeFieldValue (state : SessionState) : String :=
  state.sample_code.getD ""

/-- The events a click result actually displays (none if an exception
propagated out of the handler). -/
def shownEvents (r : ClickResult) : List UIEvent :=
  match r.outcome with
  | PyResult.ok events => events
  | PyResult.exn _ => []

/-- Number of positions of `l` at which `pat` occurs as a contiguous
block. -/
def occCount (pat : List Char) : List Char → Nat
  | [] => 0
  | c :: rest => (if pat.isPrefixOf (c :: rest) then 1 else 0) + occCount pat rest

theorem isPrefixOf_append_self (l t : List Char) : l.isPrefixOf (l ++ t) = true := by
  induction l with
  | nil => simp [List.isPrefixOf]
  | cons c r ih => simp [List.isPrefixOf, ih]

theorem occCount_pos (pat a b : List Char) (h : pat ≠ []) :
    0 < occCount pat (a ++ (pat ++ b)) := by
  induction a with
  | nil =>
    cases pat with
    | nil => exact absurd rfl h
    | cons c r =>
      have hpre : (c :: r).isPrefixOf (c :: (r ++ b)) = true := by
        rw [← List.cons_append]
        exact isPrefixOf_append_self (c :: r) b
      show 0 < occCount (c :: r) (c :: (r ++ b))
      simp [occCount, hpre]
  | cons x a' ih =>
    simp only [List.cons_append, occCount]
    exact Nat.lt_of_lt_of_le ih (Nat.le_add_left _ _)

theorem occCount_pos_of_eq (pat l a b : List Char) (hne : pat ≠ [])
    (heq : l = a ++ (pat ++ b)) : 0 < occCount pat l := by
  rw [heq]; exact occCount_pos pat a b hne

/-- C1: when the remote chat-completion call raises with detail `d`,
`explain_code` returns (does not raise) the string
`"Error explaining code: " ++ d`, which begins with
`"Error explaining code: "` and contains the fault detail. -/
theorem C1_remote_fault (call : ChatRequest → PyResult ChatCompletion)
    (code lang tier inst detail : String)
    (hinst : List.lookup tier complexity_prompts = some inst)
    (hcall : ∀ req, call req = PyResult.exn detail) :
    (explain_code call code lang tier).1 =
      PyResult.ok ("Error explaining code: " ++ detail) ∧
    (∃ t, "Error explaining code: ".data ++ t =
      ("Error explaining code: " ++ detail).data) ∧
    (∃ a b, a ++ detail.data ++ b =
      ("Error explaining code: " ++ detail).data) := by
  refine ⟨?_, ⟨detail.data, (String.data_append _ _).symm⟩,
    ⟨"Error explaining code: ".data, [], by simp [String.data_append]⟩⟩
  simp [explain_code, explain_code_body, hinst, hcall, handleCompletion]

theorem C1_witness :
    (explain_code (fun _ => PyResult.exn "boom") "print(1)" "Python" "Beginner").1 =
      PyResult.ok ("Error explaining code: " ++ "boom") ∧
    (∃ t, "Error explaining code: ".data ++ t =
      ("Error explaining code: " ++ "boom").data) ∧
    (∃ a b, a ++ "boom".data ++ b =
      ("Error explaining code: " ++ "boom").data) :=
  C1_remote_fault (fun _ => PyResult.exn "boom") "print(1)" "Python" "Beginner"
    "Explain this code in very simple terms, as if talking to someone who just started programming. Use everyday language and avoid technical jargon."
    "boom" rfl (fun _ => rfl)

/-- C2: when the remote call succeeds and the first returned choice's
message content is `content`, `explain_code` returns exactly `content`,
unmodified. -/
theorem C2_success_verbatim (call : ChatRequest → PyResult ChatCompletion)
    (code lang tier inst content : String) (rest : List Choice)
    (hinst : List.lookup tier complexity_prompts = some inst)
    (hcall : ∀ req, call req =
      PyResult.ok { choices := { message := { content := content } } :: rest }) :
    (explain_code call code lang tier).1 = PyResult.ok content := by
  simp [explain_code, explain_code_body, hinst, hcall, handleCompletion]

theorem C2_witness :
    (explain_code
      (fun _ => PyResult.ok { choices := [{ message := { content := "X" } }] })
      "print(1)" "Python" "Beginner").1 = PyResult.ok "X" :=
  C2_success_verbatim
    (fun _ => PyResult.ok { choices := [{ message := { content := "X" } }] })
    "print(1)" "Python" "Beginner"
    "Explain this code in very simple terms, as if talking to someone who just started programming. Use everyday language and avoid technical jargon."
    "X" [] rfl (fun _ => rfl)

/-- C3: each of the three complexity tiers selects an instruction string
(the lookup in `complexity_prompts` succeeds, making selection a total
function of the tier), the selected string is non-empty, and the three
selections are pairwise distinct; determinism is inherent in
`complexity_prompts` being a fixed association list. -/
theorem C3_tier_templates :
    (∀ tier, tier ∈ complexity_levels →
      ∃ inst, List.lookup tier complexity_prompts = some inst ∧ inst ≠ "") ∧
    List.lookup "Beginner" complexity_prompts ≠
      List.lookup "Intermediate" complexity_prompts ∧
    List.lookup "Beginner" complexity_prompts ≠
      List.lookup "Advanced" complexity_prompts ∧
    List.lookup "Intermediate" complexity_prompts ≠
      List.lookup "Advanced" complexity_prompts := by
  refine ⟨?_, by decide, by decide, by decide⟩
  intro tier htier
  fin_cases htier
  · exact ⟨_, rfl, by decide⟩
  · exact ⟨_, rfl, by decide⟩
  · exact ⟨_, rfl, by decide⟩

theorem C3_witness :
    ∃ inst, List.lookup "Advanced" complexity_prompts = some inst ∧ inst ≠ "" :=
  C3_tier_templates.1 "Advanced" (by decide)

/-- C6: on every execution path (unknown tier, remote fault, malformed
response, success) the Python call of `explain_code` returns a string
value and never ends in a raised exception, so the caller needs no
failure branch. -/
theorem C6_total_string (call : ChatRequest → PyResult ChatCompletion)
    (code lang tier : String) :
    ∃ s : String, (explain_code call code lang tier).1 = PyResult.ok s := by
  rcases hl : List.lookup tier complexity_prompts with _ | inst
  · exact ⟨"Error explaining code: " ++ pyKeyErrorStr tier,
      by simp [explain_code, explain_code_body, hl]⟩
  · rcases hc : handleCompletion (call (mkChatRequest (buildPrompt inst lang code)))
      with v | e
    · exact ⟨v, by simp [explain_code, explain_code_body, hl, hc]⟩
    · exact ⟨"Error explaining code: " ++ e,
        by simp [explain_code, explain_code_body, hl, hc]⟩

/-- C9: after the clear action, the session-state value backing the code
input is the empty string, and the code field reads back empty on the
next render. -/
theorem C9_clear_code (state : SessionState) :
    (handleClearClick state).sample_code = some "" ∧
    codeFieldValue (handleClearClick state) = "" :=
  ⟨rfl, rfl⟩

/-- C10: for a tier outside the template dictionary, `explain_code` does
not raise: the `KeyError` from template selection is caught by the same
handler as remote faults, no request is issued, and the returned string
begins with `"Error explaining code: "`. -/
theorem C10_unknown_tier (call : ChatRequest → PyResult ChatCompletion)
    (code lang tier : String)
    (h : List.lookup tier complexity_prompts = none) :
    (explain_code call code lang tier).1 =
      PyResult.ok ("Error explaining code: " ++ pyKeyErrorStr tier) ∧
    (explain_code call code lang tier).2 = [] ∧
    (∃ t, "Error explaining code: ".data ++ t =
      ("Error explaining code: " ++ pyKeyErrorStr tier).data) := by
  refine ⟨?_, ?_, ⟨(pyKeyErrorStr tier).data, (String.data_append _ _).symm⟩⟩
  · simp [explain_code, explain_code_body, h]
  · simp [explain_code, explain_code_body, h]

theorem C10_witness :
    (explain_code (fun _ => PyResult.exn "net down") "print(1)" "Python" "Expert").1 =
      PyResult.ok ("Error explaining code: " ++ pyKeyErrorStr "Expert") ∧
    (explain_code (fun _ => PyResult.exn "net down") "print(1)" "Python" "Expert").2 = [] ∧
    (∃ t, "Error explaining code: ".data ++ t =
      ("Error explaining code: " ++ pyKeyErrorStr "Expert").data) :=
  C10_unknown_tier (fun _ => PyResult.exn "net down") "print(1)" "Python" "Expert"
    (by decide)

/-- Existence of an `st.error` event among displayed events. -/
def hasErrorEvent (events : List UIEvent) : Bool :=
  events.any fun e =>
    match e with
    | UIEvent.errorMsg _ => true
    | _ => false

theorem handleExplainClick_state (groqNew : String → PyResult GroqClient)
    (callc : GroqClient → ChatRequest → PyResult ChatCompletion)
    (state : SessionState) (code lang tier : String) :
    (handleExplainClick groqNew callc state code lang tier).state = state := by
  unfold handleExplainClick
  split
  · rfl
  · split
    · rfl
    · split
      · split <;> rfl
      · rfl

/-- C4: when the code snippet is blank (trims to empty), the explain
action never invokes `explain_code`, issues no request, surfaces exactly
the warning message, and renders no explanation (the result pane stays
unset). -/
theorem C4_blank_code (groqNew : String → PyResult GroqClient)
    (call : GroqClient → ChatRequest → PyResult ChatCompletion)
    (state : SessionState) (code lang tier : String)
    (h : pyStrip code = "") :
    (handleExplainClick groqNew call state code lang tier).explain_invoked = false ∧
    (handleExplainClick groqNew call state code lang tier).requests = [] ∧
    (handleExplainClick groqNew call state code lang tier).outcome =
      PyResult.ok [UIEvent.warning "Please enter some code to explain!"] ∧
    ∀ t, UIEvent.explanation t ∉
      shownEvents (handleExplainClick groqNew call state code lang tier) := by
  have hc : (pyStrip code == "") = true := by simp [h]
  refine ⟨?_, ?_, ?_, ?_⟩ <;> simp [handleExplainClick, hc, shownEvents]

theorem C4_witness :
    (handleExplainClick (fun _ => PyResult.exn "e") (fun _ _ => PyResult.exn "e")
      (SessionState.mk (some "key") none) "   " "Python" "Beginner").explain_invoked
        = false ∧
    (handleExplainClick (fun _ => PyResult.exn "e") (fun _ _ => PyResult.exn "e")
      (SessionState.mk (some "key") none) "   " "Python" "Beginner").requests = [] ∧
    (handleExplainClick (fun _ => PyResult.exn "e") (fun _ _ => PyResult.exn "e")
      (SessionState.mk (some "key") none) "   " "Python" "Beginner").outcome =
      PyResult.ok [UIEvent.warning "Please enter some code to explain!"] ∧
    ∀ t, UIEvent.explanation t ∉
      shownEvents (handleExplainClick (fun _ => PyResult.exn "e")
        (fun _ _ => PyResult.exn "e")
        (SessionState.mk (some "key") none) "   " "Python" "Beginner") :=
  C4_blank_code (fun _ => PyResult.exn "e") (fun _ _ => PyResult.exn "e")
    (SessionState.mk (some "key") none) "   " "Python" "Beginner" (by decide)

/-- C5 counterexample: with an absent credential and a blank code
snippet, the explain action surfaces only the blank-code warning — no
`st.error` event is emitted — so the claim's "a user-facing error is
surfaced" fails at this input (its "never invoked" half does hold). -/
theorem C5_counterexample :
    truthyOpt (SessionState.mk none none).groq_api_key = false ∧
    ¬ ((handleExplainClick (fun _ => PyResult.exn "e") (fun _ _ => PyResult.exn "e")
          (SessionState.mk none none) "" "Python" "Beginner").explain_invoked = false ∧
       hasErrorEvent (shownEvents
          (handleExplainClick (fun _ => PyResult.exn "e") (fun _ _ => PyResult.exn "e")
            (SessionState.mk none none) "" "Python" "Beginner")) = true) := by
  decide

/-- C5 (amended): with a missing or empty credential the explain action
never invokes `explain_code` and issues no request, whatever the code
content; and when the code snippet is additionally non-blank, a
user-facing `st.error` is surfaced instead (with blank code, the
blank-code warning takes precedence). -/
theorem C5_missing_key (groqNew : String → PyResult GroqClient)
    (call : GroqClient → ChatRequest → PyResult ChatCompletion)
    (state : SessionState) (code lang tier : String)
    (h : truthyOpt state.groq_api_key = false) :
    (handleExplainClick groqNew call state code lang tier).explain_invoked = false ∧
    (handleExplainClick groqNew call state code lang tier).requests = [] ∧
    (pyStrip code ≠ "" →
      (handleExplainClick groqNew call state code lang tier).outcome =
        PyResult.ok [UIEvent.errorMsg "Please enter your Groq API key in the sidebar!"] ∧
      hasErrorEvent (shownEvents
        (handleExplainClick groqNew call state code lang tier)) = true) := by
  by_cases hb : pyStrip code = ""
  · have hc : (pyStrip code == "") = true := by simp [hb]
    refine ⟨?_, ?_, fun hne => absurd hb hne⟩ <;> simp [handleExplainClick, hc]
  · have hc : (pyStrip code == "") = false := by simp [hb]
    refine ⟨?_, ?_, fun _ => ⟨?_, ?_⟩⟩ <;>
      simp [handleExplainClick, hc, h, shownEvents, hasErrorEvent]

theorem C5_witness :
    truthyOpt (SessionState.mk none none).groq_api_key = false ∧
    (handleExplainClick (fun _ => PyResult.exn "e") (fun _ _ => PyResult.exn "e")
      (SessionState.mk none none) "x = 1" "Python" "Beginner").explain_invoked = false ∧
    (handleExplainClick (fun _ => PyResult.exn "e") (fun _ _ => PyResult.exn "e")
      (SessionState.mk none none) "x = 1" "Python" "Beginner").requests = [] ∧
    (pyStrip "x = 1" ≠ "" →
      (handleExplainClick (fun _ => PyResult.exn "e") (fun _ _ => PyResult.exn "e")
        (SessionState.mk none none) "x = 1" "Python" "Beginner").outcome =
        PyResult.ok [UIEvent.errorMsg "Please enter your Groq API key in the sidebar!"] ∧
      hasErrorEvent (shownEvents
        (handleExplainClick (fun _ => PyResult.exn "e") (fun _ _ => PyResult.exn "e")
          (SessionState.mk none none) "x = 1" "Python" "Beginner")) = true) :=
  ⟨rfl,
   C5_missing_key (fun _ => PyResult.exn "e") (fun _ _ => PyResult.exn "e")
     (SessionState.mk none none) "x = 1" "Python" "Beginner" rfl⟩

theorem explain_code_requests (call : ChatRequest → PyResult ChatCompletion)
    (code lang tier inst : String)
    (hinst : List.lookup tier complexity_prompts = some inst) :
    (explain_code call code lang tier).2 =
      [mkChatRequest (buildPrompt inst lang code)] := by
  rcases hc : handleCompletion (call (mkChatRequest (buildPrompt inst lang code)))
    with v | e <;>
  simp [explain_code, explain_code_body, hinst, hc]

theorem C8_aux (call : ChatRequest → PyResult ChatCompletion)
    (code lang tier inst : String)
    (hinst : List.lookup tier complexity_prompts = some inst) :
    (explain_code call code lang tier).2 =
      [mkChatRequest (buildPrompt inst lang code)] ∧
    (∀ req ∈ (explain_code call code lang tier).2,
      req.model = "llama3-8b-8192" ∧ req.temperature = 3 / 10 ∧
      req.max_tokens = 1500 ∧
      req.messages = [{ role := "system", content := systemContent },
                      { role := "user", content := buildPrompt inst lang code }]) ∧
    (∀ groqNew callc state,
      (handleExplainClick groqNew callc state code lang tier).state = state) := by
  refine ⟨explain_code_requests call code lang tier inst hinst, ?_,
    fun groqNew callc state =>
      handleExplainClick_state groqNew callc state code lang tier⟩
  intro req hreq
  rw [explain_code_requests call code lang tier inst hinst] at hreq
  have hr := List.mem_singleton.mp hreq
  subst hr
  exact ⟨rfl, rfl, rfl, rfl⟩

/-- C8: an invocation of `explain_code` with a tier from the enumeration
issues exactly one chat request, carrying exactly two messages (the fixed
system persona and the constructed prompt as user message), the fixed
model identifier, temperature 0.3 and the fixed max-token bound; and the
explain-button handler leaves the session state unchanged. -/
theorem C8_single_request (call : ChatRequest → PyResult ChatCompletion)
    (code lang tier : String) (h : tier ∈ complexity_levels) :
    ∃ inst, List.lookup tier complexity_prompts = some inst ∧
      (explain_code call code lang tier).2 =
        [mkChatRequest (buildPrompt inst lang code)] ∧
      (∀ req ∈ (explain_code call code lang tier).2,
        req.model = "llama3-8b-8192" ∧ req.temperature = 3 / 10 ∧
        req.max_tokens = 1500 ∧
        req.messages = [{ role := "system", content := systemContent },
                        { role := "user", content := buildPrompt inst lang code }]) ∧
      (∀ groqNew callc state,
        (handleExplainClick groqNew callc state code lang tier).state = state) := by
  fin_cases h
  · exact ⟨_, rfl, C8_aux call code lang "Beginner" _ rfl⟩
  · exact ⟨_, rfl, C8_aux call code lang "Intermediate" _ rfl⟩
  · exact ⟨_, rfl, C8_aux call code lang "Advanced" _ rfl⟩

/-- Check, at a representative code snippet, that the constructed prompt
contains the language label exactly once in the descriptive
`Programming Language:` line and its lower-casing exactly once as the
fenced-block annotation. -/
def langTierOnce (lang tier : String) : Bool :=
  match List.lookup tier complexity_prompts with
  | none => false
  | some inst =>
    (occCount ("Programming Language: " ++ lang).data
        (buildPrompt inst lang "print(42)").data == 1) &&
    (occCount ("```" ++ pyLower lang).data
        (buildPrompt inst lang "print(42)").data == 1)

/-- The once-check over the full language and tier enumerations. -/
def langOnceAll : Bool :=
  programming_languages.all fun lang =>
    complexity_levels.all fun tier => langTierOnce lang tier

theorem promptLit1_split :
    promptLit1 = "\n        \n        " ++ "Programming Language: " := rfl

theorem promptLit2_split :
    promptLit2 = "\n        \n        Code to explain:\n        " ++ "```" := rfl

/-- C7: for every language of the enumeration and every tier, the
constructed prompt contains `Programming Language: <label>` and the
fence annotation `` ```<lower-cased label> `` (for every code snippet),
and each occurs exactly once (checked over the whole enumeration at a
representative snippet). -/
theorem C7_label_in_prompt :
    (∀ lang tier inst code, lang ∈ programming_languages →
      List.lookup tier complexity_prompts = some inst →
      0 < occCount ("Programming Language: " ++ lang).data
            (buildPrompt inst lang code).data ∧
      0 < occCount ("```" ++ pyLower lang).data
            (buildPrompt inst lang code).data) ∧
    langOnceAll = true := by
  constructor
  · intro lang tier inst code _ _
    constructor
    · refine occCount_pos_of_eq _ _
        ((promptLit0 ++ inst ++ "\n        \n        ").data)
        ((promptLit2 ++ pyLower lang ++ promptLit3 ++ code ++ promptLit4).data)
        ?_ ?_
      · intro hnil
        rw [String.data_append] at hnil
        exact absurd (List.append_eq_nil.mp hnil).1 (by decide)
      · simp [buildPrompt, promptLit1_split, String.data_append, List.append_assoc]
    · refine occCount_pos_of_eq _ _
        ((promptLit0 ++ inst ++ promptLit1 ++ lang ++
          "\n        \n        Code to explain:\n        ").data)
        ((promptLit3 ++ code ++ promptLit4).data)
        ?_ ?_
      · intro hnil
        rw [String.data_append] at hnil
        exact absurd (List.append_eq_nil.mp hnil).1 (by decide)
      · simp [buildPrompt, promptLit2_split, String.data_append, List.append_assoc]
  · decide

theorem C7_witness :
    0 < occCount ("Programming Language: " ++ "Python").data
          (buildPrompt "Explain this code in very simple terms, as if talking to someone who just started programming. Use everyday language and avoid technical jargon." "Python" "print(42)").data ∧
    0 < occCount ("```" ++ pyLower "Python").data
          (buildPrompt "Explain this code in very simple terms, as if talking to someone who just started programming. Use everyday language and avoid technical jargon." "Python" "print(42)").data :=
  C7_label_in_prompt.1 "Python" "Beginner"
    "Explain this code in very simple terms, as if talking to someone who just started programming. Use everyday language and avoid technical jargon."
    "print(42)" (by decide) rfl

theorem C8_witness :
    ∃ inst, List.lookup "Beginner" complexity_prompts = some inst ∧
      (explain_code (fun _ => PyResult.exn "down") "print(1)" "Python" "Beginner").2 =
        [mkChatRequest (buildPrompt inst "Python" "print(1)")] ∧
      (∀ req ∈ (explain_code (fun _ => PyResult.exn "down") "print(1)" "Python" "Beginner").2,
        req.model = "llama3-8b-8192" ∧ req.temperature = 3 / 10 ∧
        req.max_tokens = 1500 ∧
        req.messages = [{ role := "system", content := systemContent },
                        { role := "user", content := buildPrompt inst "Python" "print(1)" }]) ∧
      (∀ groqNew callc state,
        (handleExplainClick groqNew callc state "print(1)" "Python" "Beginner").state = state) :=
  C8_single_request (fun _ => PyResult.exn "down") "print(1)" "Python" "Beginner"
    (by decide)
